import Mathlib

/-!
Shallow embedding of `src/Home_task_8.py`, a command-line contact manager
(`AddressBook` of `Record`s with validated `Phone` and `Birthday` fields,
pickle persistence, and command handlers wrapped by the `input_error`
decorator).  Python exceptions (`ValueError`) are embedded as `Except` with
the exception's message; in-place object mutation is embedded as explicit
state passing.  Machine-level details irrelevant to the claims (the REPL
loop, `print`) are not modelled.
-/

set_option autoImplicit false

namespace HomeTask8

/-- A Python `ValueError` is carried as its message string. -/
abbrev PyError := String

/-! Part: Python library semantics used by the source -/

/-- Model of Python `str.isdigit` on a single character: true for Unicode
characters of digit type.  Python's `str.isdigit` is *not* limited to ASCII
`0-9`; it also accepts e.g. the superscripts `¹ ² ³ ⁰ ⁴-⁹`, subscripts,
Arabic-Indic, extended Arabic-Indic, Devanagari and fullwidth digits.  The
model covers ASCII plus those common ranges (further Unicode digit ranges
exist in Python; they behave like the listed ones). -/
def pyIsdigitChar (c : Char) : Bool :=
  (decide (0x30 ≤ c.toNat) && decide (c.toNat ≤ 0x39)) ||
  (c.toNat == 0xB2) || (c.toNat == 0xB3) || (c.toNat == 0xB9) ||
  (decide (0x660 ≤ c.toNat) && decide (c.toNat ≤ 0x669)) ||
  (decide (0x6F0 ≤ c.toNat) && decide (c.toNat ≤ 0x6F9)) ||
  (decide (0x966 ≤ c.toNat) && decide (c.toNat ≤ 0x96F)) ||
  (c.toNat == 0x2070) ||
  (decide (0x2074 ≤ c.toNat) && decide (c.toNat ≤ 0x2079)) ||
  (decide (0x2080 ≤ c.toNat) && decide (c.toNat ≤ 0x2089)) ||
  (decide (0xFF10 ≤ c.toNat) && decide (c.toNat ≤ 0xFF19))

/-- Model of Python `str.isdigit` on a string: false for the empty string,
else true iff every character is a digit character. -/
def pyIsdigit (s : String) : Bool :=
  !s.data.isEmpty && s.data.all pyIsdigitChar

/-- ASCII digit `0-9` (the character class `[0-9]` of the spec's regex). -/
def isAsciiDigit (c : Char) : Bool :=
  decide (48 ≤ c.toNat) && decide (c.toNat ≤ 57)

/-- Numeric value of a list of ASCII digits, as Python `int()` reads it
(leading zeros allowed). -/
def digitsToNat (l : List Char) : Nat :=
  l.foldl (fun a c => a * 10 + (c.toNat - 48)) 0

/-- Leap-year test of Python `calendar`/`datetime`. -/
def isLeap (y : Nat) : Bool :=
  (y % 4 == 0 && y % 100 != 0) || y % 400 == 0

/-- Days in a month, as Python `datetime` checks on construction. -/
def daysInMonth (y m : Nat) : Nat :=
  if m == 2 then (if isLeap y then 29 else 28)
  else if m == 4 || m == 6 || m == 9 || m == 11 then 30
  else 31

/-- The day field of CPython `strptime`'s `%d`: the regex
`3[01]|[12]\d|0[1-9]|[1-9]`, i.e. one or two ASCII digits whose value is
between 1 and 31 (zero-padding optional). -/
def dayField (l : List Char) : Option Nat :=
  if !l.isEmpty && decide (l.length ≤ 2) && l.all isAsciiDigit &&
      decide (1 ≤ digitsToNat l) && decide (digitsToNat l ≤ 31)
  then some (digitsToNat l) else none

/-- The month field of CPython `strptime`'s `%m`: the regex
`1[0-2]|0[1-9]|[1-9]`, i.e. one or two ASCII digits whose value is between
1 and 12 (zero-padding optional). -/
def monthField (l : List Char) : Option Nat :=
  if !l.isEmpty && decide (l.length ≤ 2) && l.all isAsciiDigit &&
      decide (1 ≤ digitsToNat l) && decide (digitsToNat l ≤ 12)
  then some (digitsToNat l) else none

/-- The year field of CPython `strptime`'s `%Y`: the regex `\d\d\d\d`,
exactly four digits. -/
def yearField (l : List Char) : Option Nat :=
  if l.length == 4 && l.all isAsciiDigit then some (digitsToNat l) else none

/-- Splits a character list at every `'.'` (the behavior of
`String.split (· == '.')`, restated structurally): `"a.b"` gives
`["a", "b"]`, an empty input gives `[""]`, adjacent dots give empty
pieces. -/
def splitOnDot : List Char → List (List Char)
  | [] => [[]]
  | c :: cs =>
    if c == '.' then [] :: splitOnDot cs
    else
      match splitOnDot cs with
      | h :: t => (c :: h) :: t
      | [] => [[c]]

/-- Model of Python `datetime.strptime(s, · · )` with format `%d.%m.%Y`
(restricted to ASCII digits): the whole string must be day `.` month `.`
year with the field regexes above, and the triple must be constructible as
a `datetime` (year at least `MINYEAR = 1`, day no larger than the month's
length).  Since the day/month/year fields contain no dots, a regex match is
exactly a three-way split of the string at its dots.  Returns
`some (day, month, year)` on success, `none` where Python raises
`ValueError`. -/
def strptimeDMY (s : String) : Option (Nat × Nat × Nat) :=
  match splitOnDot s.data with
  | [ds, ms, ys] =>
    match dayField ds, monthField ms, yearField ys with
    | some d, some m, some y =>
      if decide (1 ≤ y) && decide (d ≤ daysInMonth y m) then some (d, m, y)
      else none
    | _, _, _ => none
  | _ => none

/-! Part: Field types (`Field`, `Name`, `Phone`, `Birthday`) -/

/-- Python class `Phone` (a `Field` subclass): holds the `.value` string. -/
structure Phone where
  value : String
  deriving DecidableEq, Repr

/-- Python `Phone.__init__`: raises `ValueError("Phone number must be 10 digits.")`
when `not value.isdigit() or len(value) != 10`, else stores the value. -/
def Phone.init (value : String) : Except PyError Phone :=
  if !(pyIsdigit value) || value.length != 10 then
    Except.error "Phone number must be 10 digits."
  else Except.ok ⟨value⟩

/-- Python class `Birthday` (a `Field` subclass): holds the `.value` string. -/
structure Birthday where
  value : String
  deriving DecidableEq, Repr

/-- Python `Birthday.__init__`: tries `datetime.strptime(value, '%d.%m.%Y')`; on
`ValueError` raises `ValueError("Invalid date format. Use DD.MM.YYYY")`,
else stores the (unchanged) text. -/
def Birthday.init (value : String) : Except PyError Birthday :=
  match strptimeDMY value with
  | some _ => Except.ok ⟨value⟩
  | none => Except.error "Invalid date format. Use DD.MM.YYYY"

/-! Part: `Record` -/

/-- Python class `Record`: `name` holds the `Name` field's `.value` (the `Name` subclass
adds no validation to `Field`), `phones` the list of `Phone` `.value`s in
insertion order, `birthday` the optional `Birthday` `.value`. -/
structure Record where
  name : String
  phones : List String
  birthday : Option String
  deriving DecidableEq, Repr

/-- Python `Record.__init__(name)`: stores `Name(name)` (no validation can fail),
an empty phone list and no birthday. -/
def Record.init (name : String) : Record :=
  { name := name, phones := [], birthday := none }

/-- Python `Record.add_phone`: constructs `Phone(phone)` (which may raise) and
appends it. -/
def Record.add_phone (r : Record) (phone : String) : Except PyError Record :=
  (Phone.init phone).map fun p => { r with phones := r.phones ++ [p.value] }

/-- Python `Record.add_birthday`: constructs `Birthday(birthday)` (which may
raise) and overwrites the stored birthday. -/
def Record.add_birthday (r : Record) (birthday : String) : Except PyError Record :=
  (Birthday.init birthday).map fun b => { r with birthday := some b.value }

/-! Part: `AddressBook` -/

/-- Python class `AddressBook`: `self.records` is a Python dict from the record's name
value to the record, embedded as an association list preserving the dict's
insertion order (assignment to an existing key keeps its position, a new
key is appended). -/
structure AddressBook where
  records : List (String × Record)
  deriving DecidableEq, Repr

/-- Python `AddressBook()`: empty dict. -/
def AddressBook.empty : AddressBook := ⟨[]⟩

/-- Python `AddressBook.add_record`: `self.records[record.name.value] = record` —
overwrites in place if the key exists, else appends. -/
def AddressBook.add_record (book : AddressBook) (record : Record) : AddressBook :=
  if book.records.any (fun kv => kv.1 == record.name) then
    ⟨book.records.map fun kv => if kv.1 == record.name then (kv.1, record) else kv⟩
  else ⟨book.records ++ [(record.name, record)]⟩

/-- Python `AddressBook.find`: `self.records.get(name)`. -/
def AddressBook.find (book : AddressBook) (name : String) : Option Record :=
  (book.records.find? (fun kv => kv.1 == name)).map Prod.snd

/-- Python `AddressBook.get_all_records`: `self.records.values()` in dict order. -/
def AddressBook.get_all_records (book : AddressBook) : List Record :=
  book.records.map Prod.snd

/-- Embedding of Python in-place mutation of the record object stored
under `key`: the dict keeps the same key at the same position, only the
record it holds changes.  (Contrast `add_record`, which keys the entry by
the *record's own* name.) -/
def AddressBook.updateAt (book : AddressBook) (key : String) (record : Record) : AddressBook :=
  ⟨book.records.map fun kv => if kv.1 == key then (kv.1, record) else kv⟩

/-! Part: Persistence (`save_to_file` / `load_from_file`) -/

/-- The filesystem as seen through `pickle`: each filename maps to the
`AddressBook` object pickled there, or `none` when no file exists.
`pickle.dump`/`pickle.load` faithfully serialize and deserialize the
object graph, so the file's content is modelled as the stored book
itself. -/
def FileSystem := String → Option AddressBook

/-- Python `AddressBook.save_to_file`: opens `filename` for writing (truncating)
and pickles `self` there. -/
def save_to_file (book : AddressBook) (fs : FileSystem) (filename : String) : FileSystem :=
  fun p => if p = filename then some book else fs p

/-- Python `AddressBook.load_from_file`: unpickles the book at `filename`; on
`FileNotFoundError` returns a fresh `AddressBook()`. -/
def load_from_file (fs : FileSystem) (filename : String) : AddressBook :=
  match fs filename with
  | some book => book
  | none => AddressBook.empty

/-! Part: Python datetimes, for the `birthdays` handler -/

/-- A Python `datetime`, as far as its comparisons in `birthdays` need it:
`ord` is `date.toordinal()` (day 1 = 0001-01-01 of the proleptic Gregorian
calendar) and `time` the time of day (any sub-day unit; only whether it is
midnight matters for the comparisons). -/
structure PyDatetime where
  ord : Nat
  time : Nat
  deriving DecidableEq, Repr

/-- Days in the year before month `m` (Python `datetime._days_before_month`). -/
def daysBeforeMonth (y m : Nat) : Nat :=
  (List.range (m - 1)).foldl (fun a i => a + daysInMonth y (i + 1)) 0

/-- Python `datetime._ymd2ord`: proleptic Gregorian ordinal of a date. -/
def ymd2ord (y m d : Nat) : Nat :=
  365 * (y - 1) + (y - 1) / 4 - (y - 1) / 100 + (y - 1) / 400 +
    daysBeforeMonth y m + d

/-- Python `datetime` comparison `a <= b` (lexicographic on date then
time of day). -/
def dtLE (a b : PyDatetime) : Bool :=
  decide (a.ord < b.ord) || (a.ord == b.ord && decide (a.time ≤ b.time))

/-- The `datetime` produced by `strptime` for a parsed `(d, m, y)`:
midnight of that date. -/
def strptimeDatetime (d m y : Nat) : PyDatetime :=
  { ord := ymd2ord y m d, time := 0 }

/-- The `ValueError` message `strptime` raises when the text does not
match the format (reproduced only so that the `birthdays` handler is total
the way the Python code is; no stored birthday ever triggers it when the
book was built through `Record.add_birthday`). -/
def strptimeErr (v : String) : PyError :=
  "time data \u0027" ++ v ++ "\u0027 does not match format \u0027%d.%m.%Y\u0027"

/-! Part: Command handlers (each wrapped in the `input_error` decorator,
which turns a raised exception into its message string) -/

/-- The list comprehension inside `birthdays`, evaluated left to right:
records without a birthday are skipped (`record.birthday` is falsy);
otherwise the stored text is re-parsed by `strptime` (raising on a bad
text) and the name is kept when
`today <= strptime(record.birthday.value) <= next_week`. -/
def collectUpcoming (today nextWeek : PyDatetime) :
    List Record → Except PyError (List String)
  | [] => Except.ok []
  | r :: rs =>
    match r.birthday with
    | none => collectUpcoming today nextWeek rs
    | some v =>
      match strptimeDMY v with
      | none => Except.error (strptimeErr v)
      | some (d, m, y) =>
        let keep := dtLE today (strptimeDatetime d m y) &&
          dtLE (strptimeDatetime d m y) nextWeek
        (collectUpcoming today nextWeek rs).map
          fun l => if keep then r.name :: l else l

/-- Python `birthdays(args, book)`: `today = datetime.today()`,
`next_week = today + timedelta(days=7)` (same time of day, ordinal + 7);
note the comparison uses the birthday text's *stored* year, no year
substitution happens.  Returns the joined names or the no-birthdays
message (the conditional expression governs the whole concatenation). -/
def birthdays (today : PyDatetime) (book : AddressBook) : String :=
  let nextWeek : PyDatetime := { today with ord := today.ord + 7 }
  match collectUpcoming today nextWeek book.get_all_records with
  | Except.error e => e
  | Except.ok [] => "No birthdays in the next week."
  | Except.ok l => "Upcoming birthdays: " ++ String.intercalate ", " l

/-- Python `add_contact(args, book)` after unpacking `name, phone, *_ = args`:
looks the name up; when absent, creates the record and **adds it to the
book before any phone validation**; then, when `phone` is truthy
(non-empty), `record.add_phone(phone)` may raise, which `input_error`
returns as the message — the book keeps every mutation made so far. -/
def add_contact (name phone : String) (book : AddressBook) : String × AddressBook :=
  match book.find name with
  | none =>
    let record := Record.init name
    let book1 := book.add_record record
    if phone == "" then ("Contact added.", book1)
    else
      match record.add_phone phone with
      | Except.ok r => ("Contact added.", book1.updateAt name r)
      | Except.error e => (e, book1)
  | some record =>
    if phone == "" then ("Contact updated.", book)
    else
      match record.add_phone phone with
      | Except.ok r => ("Contact updated.", book.updateAt name r)
      | Except.error e => (e, book)

/-- Replace the first element equal to `o` by `n`, reporting `none` when
no element matches — the loop body of `change_contact`. -/
def replaceFirst : List String → String → String → Option (List String)
  | [], _, _ => none
  | p :: ps, o, n =>
    if p == o then some (n :: ps)
    else (replaceFirst ps o n).map fun l => p :: l

/-- Python `change_contact(args, book)` after unpacking
`name, old_phone, new_phone, *_ = args`: finds the record, scans its
phones for the first one equal to `old_phone` and assigns
`phone.value = new_phone` **without any validation of `new_phone`**,
returning immediately; reports the not-found cases otherwise. -/
def change_contact (name old_phone new_phone : String) (book : AddressBook) :
    String × AddressBook :=
  match book.find name with
  | none => ("Contact not found.", book)
  | some record =>
    match replaceFirst record.phones old_phone new_phone with
    | some phones =>
      ("Phone number updated for " ++ name ++ ".",
        book.updateAt name { record with phones := phones })
    | none => ("Old phone number not found.", book)

/-- Python `add_birthday(args, book)` after unpacking `name, birthday, *_`:
finds the record and sets its birthday (validation may raise, which
`input_error` returns as the message). -/
def add_birthday (name birthday : String) (book : AddressBook) : String × AddressBook :=
  match book.find name with
  | some record =>
    match record.add_birthday birthday with
    | Except.ok r => ("Birthday added for " ++ name ++ ".", book.updateAt name r)
    | Except.error e => (e, book)
  | none => ("Contact not found.", book)

/-- Python `show_birthday(args, book)` after unpacking `name, *_`: the guard
`if record and record.birthday:` sends both a missing record and a record
without a birthday to the same `"Birthday not found."` answer. -/
def show_birthday (name : String) (book : AddressBook) : String :=
  match book.find name with
  | some record =>
    match record.birthday with
    | some b => name ++ "\u0027s birthday is on " ++ b ++ "."
    | none => "Birthday not found."
  | none => "Birthday not found."

/-! Part: the spec's own vocabulary, for the refinement-style claims -/

/-- The spec's phone format `^[0-9]{10}$`: exactly 10 ASCII digits. -/
def specPhoneRegex (s : String) : Bool :=
  s.length == 10 && s.data.all isAsciiDigit

/-- The spec's birthday format: a zero-padded two-digit day, a zero-padded
two-digit month and a four-digit year separated by dots, denoting an
existing calendar date. -/
def specBirthdayFormat (s : String) : Bool :=
  match splitOnDot s.data with
  | [ds, ms, ys] =>
    ds.length == 2 && ms.length == 2 && ys.length == 4 &&
    ds.all isAsciiDigit && ms.all isAsciiDigit && ys.all isAsciiDigit &&
    decide (1 ≤ digitsToNat ds) && decide (1 ≤ digitsToNat ms) &&
    decide (digitsToNat ms ≤ 12) && decide (1 ≤ digitsToNat ys) &&
    decide (digitsToNat ds ≤ daysInMonth (digitsToNat ys) (digitsToNat ms))
  | _ => false

/-! Part: claim theorems -/

/-- C1: `save_to_file` followed by `load_from_file` at the same path
reproduces an equivalent store — in fact the very same store, so every
name maps to a record with the same phones in the same order and the same
(or no) birthday. -/
theorem save_then_load_equiv (book : AddressBook) (fs : FileSystem) (path : String) :
    load_from_file (save_to_file book fs path) path = book ∧
    ∀ name, (load_from_file (save_to_file book fs path) path).find name = book.find name := by
  have h : load_from_file (save_to_file book fs path) path = book := by
    simp [load_from_file, save_to_file]
  exact ⟨h, fun name => by rw [h]⟩

/-- C8: `load_from_file` on a path where no file exists returns a fresh
empty `AddressBook`, not an error. -/
theorem load_missing_file_returns_empty (fs : FileSystem) (path : String)
    (h : fs path = none) :
    load_from_file fs path = AddressBook.empty ∧
    (load_from_file fs path).records = [] := by
  simp [load_from_file, h, AddressBook.empty]

/-- Witness for C8 at a concrete empty filesystem and the source's own
filename. -/
theorem load_missing_file_returns_empty_example :
    load_from_file (fun _ => none) "address_book.pkl" = AddressBook.empty :=
  (load_missing_file_returns_empty (fun _ => none) "address_book.pkl" rfl).1

/-- C5 (code bug): `add_contact` with a fresh name and an invalid phone
surfaces the `ValidationError` message, yet the store has been mutated —
it now contains the new name with an empty phone list, because the record
is added to the book *before* the phone is validated. -/
theorem add_contact_partial_mutation :
    add_contact "Bob" "123" AddressBook.empty =
      ("Phone number must be 10 digits.",
        ⟨[("Bob", { name := "Bob", phones := [], birthday := none })]⟩) ∧
    Phone.init "123" = Except.error "Phone number must be 10 digits." :=
  ⟨rfl, rfl⟩

/-- C6 (code bug): the `birthdays` handler compares the *stored* year of
the birthday text against the window, with no year substitution: a record
with birthday `15.03.1990` is not reported for `today = 2024-03-10`, even
though the date with the year replaced by today's year (2024-03-15) lies
inside the inclusive 7-day window `[today, today + 7]`. -/
theorem birthdays_use_stored_year :
    birthdays ⟨ymd2ord 2024 3 10, 0⟩
        ⟨[("Anna", ⟨"Anna", ["0501234567"], some "15.03.1990"⟩)]⟩
      = "No birthdays in the next week." ∧
    strptimeDMY "15.03.1990" = some (15, 3, 1990) ∧
    ymd2ord 2024 3 10 ≤ ymd2ord 2024 3 15 ∧
    ymd2ord 2024 3 15 ≤ ymd2ord 2024 3 10 + 7 := by
  exact ⟨by decide, by decide, by decide, by decide⟩

/-- C7 (counterexample): `Record` creation performs no validation at all —
constructing a record with the empty name succeeds (the `Name` field class
adds no check to `Field`), and the empty name even flows through
`add_contact` into the store; the claim's `ValidationError` on an empty
name does not exist in the code. -/
theorem record_empty_name_accepted :
    Record.init "" = { name := "", phones := [], birthday := none } ∧
    (add_contact "" "0501234567" AddressBook.empty).2.find ""
      = some { name := "", phones := ["0501234567"], birthday := none } :=
  ⟨rfl, rfl⟩

/-- C7 (amended): `Record` creation never fails: for every name text —
empty or not — it succeeds and stores exactly that name with no phones and
no birthday, and the add-contact flow accepts the name as a store key. -/
theorem record_creation_never_fails (name : String) :
    Record.init name = { name := name, phones := [], birthday := none } ∧
    (add_contact name "0501234567" AddressBook.empty).1 = "Contact added." := by
  refine ⟨rfl, ?_⟩
  have h : (Record.init name).add_phone "0501234567"
      = Except.ok { name := name, phones := ["0501234567"], birthday := none } := rfl
  have h2 : (("0501234567" : String) == "") = false := rfl
  simp [add_contact, AddressBook.find, AddressBook.empty, h, h2]

/-- C2 (counterexample): Python's `str.isdigit` is not the ASCII class
`[0-9]`; ten superscript-two characters pass the `Phone` validation even
though they match no part of `^[0-9]{10}$`. -/
theorem phone_nonascii_digits_accepted :
    Phone.init "²²²²²²²²²²" = Except.ok ⟨"²²²²²²²²²²"⟩ ∧
    specPhoneRegex "²²²²²²²²²²" = false :=
  ⟨rfl, rfl⟩

/-- C2 (amended): `Phone` construction fails with the message
`"Phone number must be 10 digits."` exactly when the text's length is not
10 or some character is not a digit in the sense of Python's `str.isdigit`
(which also accepts non-ASCII Unicode digit characters); whenever
`str.isdigit` holds and the length is 10 it succeeds and the stored text
equals the input. -/
theorem phone_validation (s : String) :
    (Phone.init s = Except.error "Phone number must be 10 digits." ↔
      ¬(pyIsdigit s = true ∧ s.length = 10)) ∧
    (pyIsdigit s = true → s.length = 10 → Phone.init s = Except.ok ⟨s⟩) := by
  unfold Phone.init
  by_cases h1 : pyIsdigit s <;> by_cases h2 : s.length = 10 <;>
    simp [h1, h2]

/-- Witness for C2's amended theorem: the spec's own valid example
round-trips. -/
theorem phone_validation_example :
    Phone.init "0501234567" = Except.ok ⟨"0501234567"⟩ :=
  (phone_validation "0501234567").2 rfl rfl

/-- Sound ranges of the `%d` field: a parsed day is between 1 and 31. -/
theorem dayField_sound {l : List Char} {d : Nat} (h : dayField l = some d) :
    1 ≤ d ∧ d ≤ 31 := by
  unfold dayField at h
  split at h
  · next hc =>
    cases h
    simp only [Bool.and_eq_true, decide_eq_true_eq] at hc
    exact ⟨hc.1.2, hc.2⟩
  · exact absurd h (by simp)

/-- Sound ranges of the `%m` field: a parsed month is between 1 and 12. -/
theorem monthField_sound {l : List Char} {m : Nat} (h : monthField l = some m) :
    1 ≤ m ∧ m ≤ 12 := by
  unfold monthField at h
  split at h
  · next hc =>
    cases h
    simp only [Bool.and_eq_true, decide_eq_true_eq] at hc
    exact ⟨hc.1.2, hc.2⟩
  · exact absurd h (by simp)

/-- Soundness of the `strptime` model: a successful parse yields a real
proleptic Gregorian calendar date (day and month in range for that year,
year at least `MINYEAR = 1`). -/
theorem strptimeDMY_sound {s : String} {d m y : Nat}
    (h : strptimeDMY s = some (d, m, y)) :
    1 ≤ d ∧ 1 ≤ m ∧ m ≤ 12 ∧ 1 ≤ y ∧ d ≤ daysInMonth y m := by
  unfold strptimeDMY at h
  split at h
  · split at h
    · next hd hm hy =>
      split at h
      · next hcond =>
        cases h
        simp only [Bool.and_eq_true, decide_eq_true_eq] at hcond
        exact ⟨(dayField_sound hd).1, (monthField_sound hm).1,
          (monthField_sound hm).2, hcond.1, hcond.2⟩
      · exact absurd h (by simp)
    · exact absurd h (by simp)
  · exact absurd h (by simp)

/-- C3 (counterexample): `strptime`'s `%d` and `%m` do not require
zero-padding — `"1.1.2024"` (one-digit day and month) is accepted by the
`Birthday` constructor although it is not in the spec's zero-padded
`DD.MM.YYYY` shape. -/
theorem birthday_unpadded_accepted :
    Birthday.init "1.1.2024" = Except.ok ⟨"1.1.2024"⟩ ∧
    specBirthdayFormat "1.1.2024" = false :=
  ⟨rfl, rfl⟩

/-- C3 (amended): `Birthday` construction succeeds (storing the exact
input text) precisely when `strptime` with `%d.%m.%Y` parses the text —
day and month written with one or two ASCII digits (zero-padding
optional), a four-digit year, separated by dots, denoting an existing
calendar date of year at least 1; otherwise it fails with
`"Invalid date format. Use DD.MM.YYYY"`.  In particular `"29.02.2023"`
(not a leap year) is rejected and `"29.02.2024"` is accepted. -/
theorem birthday_validation (s : String) :
    (Birthday.init s = Except.ok ⟨s⟩ ↔
      (∃ d m y, strptimeDMY s = some (d, m, y) ∧ 1 ≤ d ∧ 1 ≤ m ∧ m ≤ 12 ∧
        1 ≤ y ∧ d ≤ daysInMonth y m)) ∧
    (strptimeDMY s = none →
      Birthday.init s = Except.error "Invalid date format. Use DD.MM.YYYY") ∧
    Birthday.init "29.02.2023" = Except.error "Invalid date format. Use DD.MM.YYYY" ∧
    Birthday.init "29.02.2024" = Except.ok ⟨"29.02.2024"⟩ := by
  refine ⟨?_, ?_, rfl, rfl⟩
  · constructor
    · intro h
      unfold Birthday.init at h
      rcases hp : strptimeDMY s with _ | ⟨⟨d, m, y⟩⟩
      · rw [hp] at h; exact absurd h (by simp)
      · obtain ⟨h1, h2, h3, h4, h5⟩ := strptimeDMY_sound hp
        exact ⟨d, m, y, rfl, h1, h2, h3, h4, h5⟩
    · rintro ⟨d, m, y, hp, -⟩
      unfold Birthday.init
      rw [hp]
  · intro h
    unfold Birthday.init
    rw [h]

/-- Witness for C3's amended theorem: day 31 of a 30-day month does not
parse, so the constructor rejects it with the fixed message. -/
theorem birthday_validation_example :
    Birthday.init "31.04.2024" = Except.error "Invalid date format. Use DD.MM.YYYY" :=
  (birthday_validation "31.04.2024").2.1 rfl

/-- With no occurrence of `o`, the `change_contact` scan falls through. -/
theorem replaceFirst_of_not_mem {l : List String} {o : String} (n : String)
    (h : o ∉ l) : replaceFirst l o n = none := by
  induction l with
  | nil => rfl
  | cons p ps ih =>
    simp only [List.mem_cons, not_or] at h
    have hp : (p == o) = false := by
      simp only [beq_eq_false_iff_ne]
      exact fun hpo => h.1 hpo.symm
    simp [replaceFirst, hp, ih h.2]

/-- The `change_contact` scan replaces exactly the first occurrence of
`o`, keeping its position and everything else. -/
theorem replaceFirst_first_occurrence {pre : List String} {o : String}
    (post : List String) (n : String) (h : o ∉ pre) :
    replaceFirst (pre ++ o :: post) o n = some (pre ++ n :: post) := by
  induction pre with
  | nil => simp [replaceFirst]
  | cons p ps ih =>
    simp only [List.mem_cons, not_or] at h
    have hp : (p == o) = false := by
      simp only [beq_eq_false_iff_ne]
      exact fun hpo => h.1 hpo.symm
    simp [replaceFirst, hp, ih h.2]

/-- C4 (counterexample): `change_contact` never validates the new phone —
replacing `"0501234567"` by the one-letter text `"x"` succeeds and stores
`"x"`, although the `Phone` validator rejects `"x"`; the claim's
`ValidationError` branch does not exist in the code. -/
theorem change_contact_no_validation :
    change_contact "Anna" "0501234567" "x"
        ⟨[("Anna", ⟨"Anna", ["0501234567"], none⟩)]⟩
      = ("Phone number updated for Anna.",
          ⟨[("Anna", ⟨"Anna", ["x"], none⟩)]⟩) ∧
    Phone.init "x" = Except.error "Phone number must be 10 digits." :=
  ⟨rfl, rfl⟩

/-- C4 (amended): `change_contact` replaces the first phone equal to
`old_phone` in place, preserving its position, storing `new_phone`
*without any validation*; when the name is missing or no phone matches it
reports the corresponding not-found message and leaves the book
unchanged. -/
theorem change_contact_spec (book : AddressBook) (name o n : String) :
    (book.find name = none →
      change_contact name o n book = ("Contact not found.", book)) ∧
    (∀ record, book.find name = some record → o ∉ record.phones →
      change_contact name o n book = ("Old phone number not found.", book)) ∧
    (∀ record pre post, book.find name = some record →
      record.phones = pre ++ o :: post → o ∉ pre →
      change_contact name o n book =
        ("Phone number updated for " ++ name ++ ".",
          book.updateAt name { record with phones := pre ++ n :: post })) := by
  refine ⟨?_, ?_, ?_⟩
  · intro h
    simp [change_contact, h]
  · intro record h hmem
    simp [change_contact, h, replaceFirst_of_not_mem n hmem]
  · intro record pre post h hphones hpre
    simp [change_contact, h, hphones, replaceFirst_first_occurrence post n hpre]

/-- Witness for C4's amended theorem: the spec's own scenario, updating
Anna's only phone. -/
theorem change_contact_spec_example :
    change_contact "Anna" "0501234567" "0509999999"
        ⟨[("Anna", ⟨"Anna", ["0501234567"], none⟩)]⟩
      = ("Phone number updated for Anna.",
          ⟨[("Anna", ⟨"Anna", ["0509999999"], none⟩)]⟩) := by
  have h := (change_contact_spec ⟨[("Anna", ⟨"Anna", ["0501234567"], none⟩)]⟩
      "Anna" "0501234567" "0509999999").2.2
    ⟨"Anna", ["0501234567"], none⟩ [] [] rfl rfl (List.not_mem_nil _)
  exact h.trans rfl

/-- Looking up `k` after replacing the value stored at `k` finds the new
value (the dict-assignment path of `add_record` for an existing key). -/
theorem find_in_replaced (l : List (String × Record)) (k : String) (r : Record)
    (h : l.any (fun kv => kv.1 == k) = true) :
    (((l.map fun kv => if kv.1 == k then (kv.1, r) else kv).find?
        (fun kv => kv.1 == k)).map Prod.snd) = some r := by
  induction l with
  | nil => simp at h
  | cons kv t ih =>
    by_cases hk : (kv.1 == k) = true
    · rw [List.map_cons, if_pos hk,
        @List.find?_cons_of_pos _ (fun kv => kv.1 == k) (kv.1, r) _ hk]
      rfl
    · rw [List.any_cons] at h
      rcases Bool.or_eq_true_iff.1 h with h1 | h1
      · exact absurd h1 hk
      · rw [List.map_cons, if_neg hk,
          @List.find?_cons_of_neg _ (fun kv => kv.1 == k) kv _ hk]
        exact ih h1

/-- Looking up `k` in a list without key `k`, extended at the end by
`(k, r)`, finds `r` (the dict-assignment path of `add_record` for a new
key). -/
theorem find_in_appended (l : List (String × Record)) (k : String) (r : Record)
    (h : l.any (fun kv => kv.1 == k) = false) :
    ((l ++ [(k, r)]).find? (fun kv => kv.1 == k)).map Prod.snd = some r := by
  induction l with
  | nil =>
    rw [List.nil_append,
      @List.find?_cons_of_pos _ (fun kv => kv.1 == k) (k, r) _ (beq_self_eq_true k)]
    rfl
  | cons kv t ih =>
    rw [List.any_cons] at h
    rcases Bool.or_eq_false_iff.1 h with ⟨h1, h2⟩
    rw [List.cons_append,
      @List.find?_cons_of_neg _ (fun kv => kv.1 == k) kv _
        (by show ¬(kv.1 == k) = true; rw [h1]; exact Bool.false_ne_true)]
    exact ih h2

/-- Python `add_record` keyed by the record's own name: looking that name
up afterwards returns exactly the new record, whatever was stored
before. -/
theorem find_add_record_self (book : AddressBook) (r : Record) :
    (book.add_record r).find r.name = some r := by
  unfold AddressBook.add_record AddressBook.find
  by_cases h : book.records.any (fun kv => kv.1 == r.name) = true
  · rw [if_pos h]
    exact find_in_replaced book.records r.name r h
  · rw [if_neg h]
    exact find_in_appended book.records r.name r (Bool.not_eq_true _ ▸ h)

/-- When `find?` succeeds on a list, `any` holds of it. -/
theorem any_eq_true_of_find? {l : List (String × Record)}
    {p : String × Record → Bool} {a : String × Record}
    (h : l.find? p = some a) : l.any p = true := by
  induction l with
  | nil => simp at h
  | cons kv t ih =>
    rw [List.any_cons]
    by_cases hk : p kv = true
    · rw [hk, Bool.true_or]
    · rw [@List.find?_cons_of_neg _ p kv _ hk] at h
      rw [ih h, Bool.or_true]

/-- In-place mutation of the record found under `name` is visible through
a subsequent lookup of `name`. -/
theorem find_updateAt {book : AddressBook} {name : String} {rec : Record}
    (h : book.find name = some rec) (r : Record) :
    (book.updateAt name r).find name = some r := by
  unfold AddressBook.find at h
  obtain ⟨kv, hfind, -⟩ := Option.map_eq_some'.1 h
  have hany : book.records.any (fun kv => kv.1 == name) = true :=
    any_eq_true_of_find? hfind
  unfold AddressBook.updateAt AddressBook.find
  exact find_in_replaced book.records name r hany

/-- C9: `add_record` fully replaces the entry keyed by the record's name
(no merge), while `add_contact` with an existing name mutates the existing
record, appending the validated phone and preserving the previously stored
phones and the birthday. -/
theorem add_record_replaces_add_contact_appends
    (book : AddressBook) (r : Record) (name phone : String) (rec : Record)
    (hfind : book.find name = some rec)
    (hphone : Phone.init phone = Except.ok ⟨phone⟩)
    (hne : (phone == "") = false) :
    ((book.add_record r).find r.name = some r) ∧
    add_contact name phone book =
      ("Contact updated.",
        book.updateAt name { rec with phones := rec.phones ++ [phone] }) ∧
    (add_contact name phone book).2.find name
      = some { rec with phones := rec.phones ++ [phone] } := by
  have hadd : rec.add_phone phone
      = Except.ok { rec with phones := rec.phones ++ [phone] } := by
    unfold Record.add_phone
    rw [hphone]
    rfl
  refine ⟨find_add_record_self book r, ?_, ?_⟩
  · simp [add_contact, hfind, hne, hadd]
  · simp [add_contact, hfind, hne, hadd, find_updateAt hfind]

/-- Witness for C9 at a concrete book: Bob keeps his old phone and his
birthday, and gains the new phone at the end, via `add_contact`; and
`add_record` of a fresh record for the same key would fully replace the
entry. -/
theorem add_record_replaces_add_contact_appends_example :
    ((⟨[("Bob", ⟨"Bob", ["0501234567"], some "15.03.1990"⟩)]⟩ :
        AddressBook).add_record (Record.init "Bob")).find "Bob"
      = some (Record.init "Bob") ∧
    (add_contact "Bob" "0509999999"
        ⟨[("Bob", ⟨"Bob", ["0501234567"], some "15.03.1990"⟩)]⟩).2.find "Bob"
      = some ⟨"Bob", ["0501234567", "0509999999"], some "15.03.1990"⟩ := by
  have h := add_record_replaces_add_contact_appends
    ⟨[("Bob", ⟨"Bob", ["0501234567"], some "15.03.1990"⟩)]⟩
    (Record.init "Bob") "Bob" "0509999999"
    ⟨"Bob", ["0501234567"], some "15.03.1990"⟩ rfl rfl rfl
  exact ⟨h.1, h.2.2⟩

/-- C10: `show_birthday` answers the same `"Birthday not found."` both
when the name has no record at all and when its record exists but carries
no birthday — the two situations are indistinguishable from the reply. -/
theorem show_birthday_conflates_missing (book : AddressBook) (name : String) :
    (book.find name = none →
      show_birthday name book = "Birthday not found.") ∧
    (∀ r, book.find name = some r → r.birthday = none →
      show_birthday name book = "Birthday not found.") := by
  constructor
  · intro h
    simp [show_birthday, h]
  · intro r h hb
    simp [show_birthday, h, hb]

/-- Witness for C10, exhibiting both situations concretely: a book without
the name, and a book whose record for the name has no birthday. -/
theorem show_birthday_conflates_missing_example :
    show_birthday "Anna" AddressBook.empty = "Birthday not found." ∧
    show_birthday "Bob" ⟨[("Bob", ⟨"Bob", ["0501234567"], none⟩)]⟩
      = "Birthday not found." :=
  ⟨(show_birthday_conflates_missing AddressBook.empty "Anna").1 rfl,
    (show_birthday_conflates_missing
      ⟨[("Bob", ⟨"Bob", ["0501234567"], none⟩)]⟩ "Bob").2
      ⟨"Bob", ["0501234567"], none⟩ rfl rfl⟩

end HomeTask8
